import Mathlib

/-!
# Verification of the Picard–Navidrome integration core

A shallow embedding of the Subsonic/Navidrome client in
`src/picard_navidrome_integration_(0.7.0-stable).py`: the JSON data model,
the response cache (`NavidromeCache`), the request layer (`_request`), the
typed catalog operations, and the two-pass library streamer
(`iter_all_songs_stream`).  Python dictionaries are modelled as association
lists, Python exceptions as an explicit error type, network I/O as oracle
functions supplied to each operation, and the stateful cancellation callable
as a Boolean sequence indexed by the number of times it has been polled.
-/

set_option autoImplicit false

namespace Navidrome

/-- JSON values as Python's `json.loads` produces them.  Numbers are modelled
as integers: every numeric field the client touches (`songCount`, ids, error
codes) is integral. -/
inductive Json where
  | null : Json
  | bool (b : Bool) : Json
  | num (n : Int) : Json
  | str (s : String) : Json
  | arr (xs : List Json) : Json
  | obj (fields : List (String × Json)) : Json

/-- A parsed JSON object (a Python `dict` produced by `json.loads`). -/
abbrev JObj := List (String × Json)

/-- `d.get(k)` on a Python dict: the first binding for `k`, if any. -/
def dictGet (d : JObj) (k : String) : Option Json :=
  (d.find? (fun p => p.1 == k)).map (·.2)

/-- `d.get(k, default)` on a Python dict. -/
def dictGetD (d : JObj) (k : String) (default : Json) : Json :=
  (dictGet d k).getD default

/-- Whether a JSON value is an object (`isinstance(v, dict)` in Python). -/
def Json.isObj : Json → Bool
  | .obj _ => true
  | _ => false

/-- Python's `int(x)` on a JSON value, `none` when `int` raises.  Matches
`int` on ints, bools and decimal strings; non-numeric strings, `None`,
lists and dicts raise. -/
def pyInt : Json → Option Int
  | .num n => some n
  | .bool b => some (if b then 1 else 0)
  | .str s => s.trim.toInt?
  | _ => none

mutual

/-- Python's `repr` of a JSON value (strings quoted).  String escaping is
not modelled: strings that themselves contain quote or backslash characters
print without escapes. -/
def pyRepr : Json → String
  | .null => "None"
  | .bool b => if b then "True" else "False"
  | .num n => toString n
  | .str s => "'" ++ s ++ "'"
  | .arr xs => "[" ++ pyReprSep xs ++ "]"
  | .obj fs => "\x7b" ++ pyReprFieldsSep fs ++ "\x7d"

/-- Comma-separated `repr`s of list elements. -/
def pyReprSep : List Json → String
  | [] => ""
  | [x] => pyRepr x
  | x :: rest => pyRepr x ++ ", " ++ pyReprSep rest

/-- Comma-separated `repr`s of dict entries. -/
def pyReprFieldsSep : List (String × Json) → String
  | [] => ""
  | [(k, v)] => "'" ++ k ++ "': " ++ pyRepr v
  | (k, v) :: rest => "'" ++ k ++ "': " ++ pyRepr v ++ ", " ++ pyReprFieldsSep rest

end

/-- Python's `str(x)` on a JSON value: the value itself for strings,
`repr` otherwise. -/
def pyStr : Json → String
  | .str s => s
  | v => pyRepr v

/-- Python exceptions the embedded code can raise: `ValueError` with its
message (every error `_request` raises explicitly), and `AttributeError`
(calling `.get` on a non-dict value). -/
inductive PyExc where
  | valueError (msg : String) : PyExc
  | attributeError : PyExc
  deriving Repr, DecidableEq

/-! ## NavidromeCache (source lines 196–231)

`NavidromeCache` wraps a Python dict `_cache : key → data`; the module keeps
one global instance shared by every `SubsonicClient` whose `enable_cache` is
true.  We model the dict as an association list. -/

/-- The cache's backing dict, `self._cache`. -/
abbrev Cache := List (String × Json)

/-- `NavidromeCache.get`: `self._cache.get(key, None)`. -/
def cacheGet (c : Cache) (key : String) : Option Json :=
  (c.find? (fun p => p.1 == key)).map (·.2)

/-- Insert-or-update on a Python dict: an existing key keeps its position and
takes the new value, a new key is appended.  (Python dicts never hold a key
twice, so updating the first occurrence is exact.) -/
def dictSet : Cache → String → Json → Cache
  | [], key, v => [(key, v)]
  | p :: rest, key, v =>
    if p.1 == key then (key, v) :: rest else p :: dictSet rest key v

/-- `NavidromeCache.set`: `self._cache[key] = data`. -/
def cacheSet (c : Cache) (key : String) (v : Json) : Cache :=
  dictSet c key v

/-- `NavidromeCache.clear`: `self._cache.clear()`. -/
def cacheClear (_ : Cache) : Cache := []

/-! ## Request building (`SubsonicClient._auth_params`, `_request`,
source lines 277–350)

The salt is random and the token is its MD5 digest; both are opaque strings
here (no claim depends on their values), so `auth_params` takes them as
inputs and records the exact key order of the dict literal in
`_auth_params`. -/

/-- The parameter dict built by `_auth_params` (in its literal order). -/
def auth_params (username token salt api_version app_name : String) :
    List (String × String) :=
  [("u", username), ("t", token), ("s", salt), ("v", api_version),
   ("c", app_name), ("f", "json")]

/-- Python's `{**a, **b}` on string dicts: keys of `a` keep their positions
(values overridden by `b` where present); new keys of `b` are appended in
order. -/
def pyDictMerge (a b : List (String × String)) : List (String × String) :=
  b.foldl
    (fun acc p =>
      if acc.any (fun q => q.1 == p.1) then
        acc.map (fun q => if q.1 == p.1 then (p.1, p.2) else q)
      else
        acc ++ [p])
    a

/-- `urllib.parse.quote_plus` over the UTF-8 bytes of `s`: alphanumerics and
`_.-~` are kept, a space becomes `+`, every other byte becomes `%XX` with
uppercase hex. -/
def quotePlus (s : String) : String :=
  String.join (s.toUTF8.toList.map (fun b =>
    let n := b.toNat
    let c := Char.ofNat n
    if n < 128 && (c.isAlphanum || c = '-' || c = '_' || c = '.' || c = '~') then
      String.singleton c
    else if n = 32 then
      "+"
    else
      "%" ++ String.singleton (Nat.digitChar (n / 16)).toUpper
          ++ String.singleton (Nat.digitChar (n % 16)).toUpper))

/-- `urllib.parse.urlencode` on a list of key/value pairs. -/
def urlencodePairs (ps : List (String × String)) : String :=
  String.intercalate "&" (ps.map (fun p => quotePlus p.1 ++ "=" ++ quotePlus p.2))

/-- The key/value pairs `_request` URL-encodes into a POST body (source lines
310–317): `all_params = {**self._auth_params(), **params}`; when `song_ids`
is non-empty, `param_pairs = list(all_params.items())` followed by one
`("songId", sid)` pair per id, else just `all_params`. -/
def requestBodyPairs (auth params : List (String × String))
    (song_ids : List String) : List (String × String) :=
  let all_params := pyDictMerge auth params
  if song_ids.isEmpty then
    all_params
  else
    all_params ++ song_ids.map (fun sid => ("songId", sid))

/-- The URL-encoded POST body built by `_request`. -/
def requestBody (auth params : List (String × String))
    (song_ids : List String) : String :=
  urlencodePairs (requestBodyPairs auth params song_ids)

/-! ## Envelope validation (`_request`, source lines 331–350)

The network round-trip is abstracted as a `NetOutcome`: the transport layer
raised (`urlopen`/`read` failed), the body was not JSON (`json.loads`
failed), or a parsed JSON object arrived.  `request` maps the outcome to
what `_request` returns or raises. -/

/-- Outcome of the HTTP call and JSON parse inside `_request`. -/
inductive NetOutcome where
  | httpError (exc : String) : NetOutcome
  | badJson (exc : String) : NetOutcome
  | payload (j : JObj) : NetOutcome

/-- Message of the error raised when the transport fails (line 335). -/
def httpErrorMsg (endpoint exc : String) : String :=
  "HTTP error calling " ++ endpoint ++ ": " ++ exc

/-- Message of the error raised when the body is not JSON (line 340). -/
def invalidJsonMsg (endpoint exc : String) : String :=
  "Invalid JSON from " ++ endpoint ++ ": " ++ exc

/-- Message of the error raised when the parsed body has no
`subsonic-response` key (line 343). -/
def missingEnvelopeMsg : String :=
  "Unexpected response: missing 'subsonic-response'"

/-- Message of the error raised when the envelope status is not `"ok"`
(line 349): `f"Subsonic error {code}: {msg}"` with `code`/`msg` from
`resp.get("error", {})` (so `str(None)` when absent). -/
def subsonicErrorMsg (code message : Option Json) : String :=
  "Subsonic error " ++ pyStr (code.getD .null) ++ ": " ++ pyStr (message.getD .null)

/-- Python's `x == "ok"` on a `.get` result: true exactly for the JSON
string `"ok"`. -/
def statusIsOk (resp : JObj) : Bool :=
  match dictGet resp "status" with
  | some (.str s) => s == "ok"
  | _ => false

/-- Lines 342–350 of `_request`: reject a payload without the
`subsonic-response` key, then demand `status == "ok"` of the envelope,
otherwise raise with the upstream error code and message. -/
def checkEnvelope (payload : JObj) : Except PyExc JObj :=
  match dictGet payload "subsonic-response" with
  | none => .error (.valueError missingEnvelopeMsg)
  | some (.obj resp) =>
    if statusIsOk resp then
      .ok resp
    else
      match dictGetD resp "error" (.obj []) with
      | .obj err => .error (.valueError
          (subsonicErrorMsg (dictGet err "code") (dictGet err "message")))
      | _ => .error .attributeError
  | some _ => .error .attributeError

/-- `_request` from the HTTP call on: endpoint normalization (line 296–297)
and the error taxonomy of lines 331–350, returning the validated envelope. -/
def request (endpoint0 : String) (outcome : NetOutcome) : Except PyExc JObj :=
  let endpoint := if endpoint0.startsWith "/" then endpoint0 else "/" ++ endpoint0
  match outcome with
  | .httpError exc => .error (.valueError (httpErrorMsg endpoint exc))
  | .badJson exc => .error (.valueError (invalidJsonMsg endpoint exc))
  | .payload j => checkEnvelope j

/-! ## Catalog operations (`SubsonicClient`, source lines 359–472)

Each operation calls `self._get`/`self._post`, i.e. `_request`.  The
operations are parameterized by the request function
`req endpoint params song_ids`, which stands for
`self._request(endpoint, params, method, song_ids)` and returns the
validated envelope or the raised exception (`request` above instantiates
it).  GET calls pass no song ids. -/

/-- Type of the request oracle standing for `self._request`. -/
abbrev ReqFun := String → List (String × String) → List String → Except PyExc JObj

/-- Python's `v.get(k, default)` on an arbitrary value: `AttributeError`
when `v` is not a dict. -/
def pyGet (v : Json) (k : String) (default : Json) : Except PyExc Json :=
  match v with
  | .obj fields => .ok (dictGetD fields k default)
  | _ => .error .attributeError

/-- The `if isinstance(x, dict): x = [x]` normalization applied to every
list-shaped response field. -/
def wrapSingleton (v : Json) : Json :=
  match v with
  | .obj _ => .arr [v]
  | _ => v

/-- The `resp.get(outer, {}).get(inner, [])` extraction followed by the
singleton normalization, shared verbatim by the five listing operations. -/
def extractListField (resp : JObj) (outer inner : String) : Except PyExc Json :=
  match pyGet (dictGetD resp outer (.obj [])) inner (.arr []) with
  | .error e => .error e
  | .ok v => .ok (wrapSingleton v)

/-- `SubsonicClient.ping` (lines 359–361). -/
def ping (req : ReqFun) : Except PyExc Bool :=
  match req "/rest/ping.view" [] [] with
  | .error e => .error e
  | .ok resp => .ok (statusIsOk resp)

/-- `SubsonicClient.get_playlists` (lines 363–368). -/
def get_playlists (req : ReqFun) : Except PyExc Json :=
  match req "/rest/getPlaylists.view" [] [] with
  | .error e => .error e
  | .ok resp => extractListField resp "playlists" "playlist"

/-- `SubsonicClient.get_playlist_tracks` (lines 370–375). -/
def get_playlist_tracks (req : ReqFun) (playlist_id : String) :
    Except PyExc Json :=
  match req "/rest/getPlaylist.view" [("id", playlist_id)] [] with
  | .error e => .error e
  | .ok resp => extractListField resp "playlist" "entry"

/-- `SubsonicClient.create_playlist` (lines 377–383): posts the name and the
song ids, then returns `str(resp.get("playlist", {}).get("id", "")) or None`
(empty string when the `playlist` field is not a dict). -/
def create_playlist (req : ReqFun) (name : String) (song_ids : List String) :
    Except PyExc (Option String) :=
  match req "/rest/createPlaylist.view" [("name", name)] song_ids with
  | .error e => .error e
  | .ok resp =>
    let pl := dictGetD resp "playlist" (.obj [])
    let pl_id :=
      match pl with
      | .obj fields => pyStr (dictGetD fields "id" (.str ""))
      | _ => ""
    .ok (if pl_id = "" then none else some pl_id)

/-- `SubsonicClient.update_playlist` (lines 385–392): only the provided
optional fields are sent. -/
def update_playlist (req : ReqFun) (playlist_id : String)
    (name : Option String) (public : Option Bool) : Except PyExc Unit :=
  let params := [("playlistId", playlist_id)]
      ++ (match name with | some n => [("name", n)] | none => [])
      ++ (match public with
          | some b => [("public", if b then "true" else "false")]
          | none => [])
  match req "/rest/updatePlaylist.view" params [] with
  | .error e => .error e
  | .ok _ => .ok ()

/-- `SubsonicClient.delete_playlist` (lines 394–395). -/
def delete_playlist (req : ReqFun) (playlist_id : String) : Except PyExc Unit :=
  match req "/rest/deletePlaylist.view" [("id", playlist_id)] [] with
  | .error e => .error e
  | .ok _ => .ok ()

/-- `SubsonicClient.search_songs` (lines 397–403). -/
def search_songs (req : ReqFun) (query : String) (count offset : Int) :
    Except PyExc Json :=
  match req "/rest/search3.view"
      [("query", query), ("songCount", toString count),
       ("songOffset", toString offset)] [] with
  | .error e => .error e
  | .ok resp => extractListField resp "searchResult3" "song"

/-! ## Cached operations (source lines 405–472)

`get_album_list2` and `get_album` consult the (optional) shared cache, fetch
on a miss, and store the normalized result.  Each returns the value or the
raised exception, the cache afterwards, and how many times the request
function was invoked (0 on a hit, 1 otherwise). -/

/-- `SubsonicClient.get_album_list2` (lines 405–438).  `cache = none` models
a client constructed with `enable_cache=False`. -/
def get_album_list2 (base_url : String) (req : ReqFun) (cache : Option Cache)
    (list_type : String) (size offset : Int) :
    Except PyExc Json × Option Cache × Nat :=
  let cache_key := base_url ++ "_album_list2_" ++ list_type ++ "_"
      ++ toString size ++ "_" ++ toString offset
  let hit := match cache with
    | some c => cacheGet c cache_key
    | none => none
  match hit with
  | some cached_albums => (.ok cached_albums, cache, 0)
  | none =>
    let params := [("type", list_type), ("size", toString size),
                   ("offset", toString offset)]
    match req "/rest/getAlbumList2.view" params [] with
    | .error e => (.error e, cache, 1)
    | .ok resp =>
      match extractListField resp "albumList2" "album" with
      | .error e => (.error e, cache, 1)
      | .ok albums =>
        match cache with
        | some c => (.ok albums, some (cacheSet c cache_key albums), 1)
        | none => (.ok albums, none, 1)

/-- `SubsonicClient.get_album` (lines 440–472). -/
def get_album (base_url : String) (req : ReqFun) (cache : Option Cache)
    (album_id : String) : Except PyExc Json × Option Cache × Nat :=
  let cache_key := base_url ++ "_album_" ++ album_id
  let hit := match cache with
    | some c => cacheGet c cache_key
    | none => none
  match hit with
  | some cached_songs => (.ok cached_songs, cache, 0)
  | none =>
    match req "/rest/getAlbum.view" [("id", album_id)] [] with
    | .error e => (.error e, cache, 1)
    | .ok resp =>
      match extractListField resp "album" "song" with
      | .error e => (.error e, cache, 1)
      | .ok songs =>
        match cache with
        | some c => (.ok songs, some (cacheSet c cache_key songs), 1)
        | none => (.ok songs, none, 1)

/-! ## The library streamer (`iter_all_songs_stream`, source lines 500–584)

The generator is modelled as a pure function from
- `lp offset` — the result of `self.get_album_list2(size=page_size,
  offset=offset)` (value or raised exception),
- `ga album_id` — the result of `self.get_album(album_id)`, and
- `cancel i` — the value the `cancel_flag` callable returns the `i`-th time
  it is polled (the flag is stateful in Python; indexing by poll count
  captures any behaviour),
to the trace the generator produces: the yielded songs (each tagged with the
number of cancel polls made before it was yielded), the arguments of every
`progress_cb` call, the total number of cancel polls, and the exception the
generator raises, if any.  Album pages and album songs are lists here, the
shape every normalized response has. -/

/-- Python's `a.get("songCount", 0)` then `int(...)` guarded by
`try/except: pass` (lines 530–534): a non-dict album raises
(`.get` on a non-dict is outside the `try`), otherwise an unconvertible
count contributes 0. -/
def songCountVal (album : Json) : Except PyExc Int :=
  match album with
  | .obj fields => .ok ((pyInt (dictGetD fields "songCount" (.num 0))).getD 0)
  | _ => .error .attributeError

/-- The `page_song_count` loop of pass 1 over one page (lines 528–534). -/
def pageCount : List Json → Except PyExc Int
  | [] => .ok 0
  | album :: rest =>
    match songCountVal album with
    | .error e => .error e
    | .ok n =>
      match pageCount rest with
      | .error e => .error e
      | .ok m => .ok (n + m)

/-- How one run of pass 1 ends: cancelled at a poll, finished with the
running total and the collected albums, or an uncaught exception.  Each
carries the number of cancel polls made. -/
inductive Pass1Out where
  | cancelled (polls : Nat) : Pass1Out
  | done (total : Int) (albums : List Json) (polls : Nat) : Pass1Out
  | err (e : PyExc) (polls : Nat) : Pass1Out

/-- The total pass 1 computed, when it finished. -/
def Pass1Out.total? : Pass1Out → Option Int
  | .done t _ _ => some t
  | _ => none

/-- The albums pass 1 collected, when it finished. -/
def Pass1Out.albums? : Pass1Out → Option (List Json)
  | .done _ a _ => some a
  | _ => none

/-- The number of cancel polls pass 1 made, however it ended. -/
def Pass1Out.polls : Pass1Out → Nat
  | .cancelled p => p
  | .done _ _ p => p
  | .err _ p => p

/-- Pass 1 of `iter_all_songs_stream` (lines 510–542): starting with
`fuel = max_pages - pages` iterations left, at `offset`, having made
`polls` cancel polls, with running `total` and collected `acc`. -/
def pass1 (lp : Nat → Except PyExc (List Json)) (cancel : Nat → Bool)
    (page_size : Nat) :
    Nat → Nat → Nat → Int → List Json → Pass1Out
  | 0, _, polls, total, acc => .done total acc polls
  | fuel + 1, offset, polls, total, acc =>
    if cancel polls then
      .cancelled (polls + 1)
    else
      match lp offset with
      | .error e => .err e (polls + 1)
      | .ok albums =>
        if albums.isEmpty then
          .done total acc (polls + 1)
        else
          match pageCount albums with
          | .error e => .err e (polls + 1)
          | .ok page_song_count =>
            if albums.length < page_size then
              .done (total + page_song_count) (acc ++ albums) (polls + 1)
            else
              pass1 lp cancel page_size fuel (offset + page_size) (polls + 1)
                (total + page_song_count) (acc ++ albums)

/-- `album_id = str(album.get("id", ""))` of pass 2 (line 561): raises on a
non-dict album. -/
def albumIdOf : Json → Except PyExc String
  | .obj fields => .ok (pyStr (dictGetD fields "id" (.str "")))
  | _ => .error .attributeError

/-- The trace of the inner per-song loop of pass 2: yields (tagged with the
poll count at yield time), `progress_cb` arguments, poll and fetched counts
afterwards, and whether a cancel poll ended the generator. -/
structure YieldOut where
  ys : List (Nat × Json)
  ps : List (Nat × Int)
  polls : Nat
  fetched : Nat
  stopped : Bool

/-- The inner per-song loop of pass 2 (lines 568–577) over the songs of one
album: poll cancellation before each song, then count it, report progress
and yield it. -/
def yieldSongs (cancel : Nat → Bool) (total : Int) :
    List Json → Nat → Nat → YieldOut
  | [], polls, fetched => ⟨[], [], polls, fetched, false⟩
  | s :: rest, polls, fetched =>
    if cancel polls then
      ⟨[], [], polls + 1, fetched, true⟩
    else
      let r := yieldSongs cancel total rest (polls + 1) (fetched + 1)
      ⟨(polls + 1, s) :: r.ys, (fetched + 1, total) :: r.ps,
        r.polls, r.fetched, r.stopped⟩

/-- How pass 2 ends: the album loop completed, a cancel poll returned true,
or an uncaught exception (a non-dict album). -/
inductive P2End where
  | completed : P2End
  | cancelled : P2End
  | errored (e : PyExc) : P2End

/-- The trace of pass 2: yields (tagged with the poll count at yield time),
`progress_cb` arguments, final poll and fetched counts, and how it ended. -/
structure P2Out where
  ys : List (Nat × Json)
  ps : List (Nat × Int)
  polls : Nat
  fetched : Nat
  fin : P2End

/-- Pass 2 of `iter_all_songs_stream` (lines 556–577): for each collected
album, poll cancellation, compute the album id, skip empty ids, fetch the
songs with `get_album` downgrading any exception to an empty list, and run
the per-song loop. -/
def pass2 (ga : String → Except PyExc (List Json)) (cancel : Nat → Bool)
    (total : Int) : List Json → Nat → Nat → P2Out
  | [], polls, fetched => ⟨[], [], polls, fetched, .completed⟩
  | album :: rest, polls, fetched =>
    if cancel polls then
      ⟨[], [], polls + 1, fetched, .cancelled⟩
    else
      match albumIdOf album with
      | .error e => ⟨[], [], polls + 1, fetched, .errored e⟩
      | .ok album_id =>
        if album_id = "" then
          pass2 ga cancel total rest (polls + 1) fetched
        else
          let songs := match ga album_id with
            | .ok songs => songs
            | .error _ => []
          let r := yieldSongs cancel total songs (polls + 1) fetched
          if r.stopped then
            ⟨r.ys, r.ps, r.polls, r.fetched, .cancelled⟩
          else
            let out := pass2 ga cancel total rest r.polls r.fetched
            ⟨r.ys ++ out.ys, r.ps ++ out.ps, out.polls, out.fetched, out.fin⟩

/-- The observable trace of one run of the generator. -/
structure StreamResult where
  yielded : List (Nat × Json)
  progress : List (Nat × Int)
  polls : Nat
  error? : Option PyExc

/-- `SubsonicClient.iter_all_songs_stream` (lines 500–584): pass 1, then —
unless pass 1 was cancelled or raised — the initial `progress_cb(0, total)`
call, pass 2, and (only when the album loop completes) the final
`progress_cb(fetched, total)` call. -/
def iter_all_songs_stream (lp : Nat → Except PyExc (List Json))
    (ga : String → Except PyExc (List Json)) (cancel : Nat → Bool)
    (page_size max_pages : Nat) : StreamResult :=
  match pass1 lp cancel page_size max_pages 0 0 0 [] with
  | .cancelled polls => ⟨[], [], polls, none⟩
  | .err e polls => ⟨[], [], polls, some e⟩
  | .done total albums polls =>
    let out := pass2 ga cancel total albums polls 0
    { yielded := out.ys
      progress := (0, total) :: out.ps ++
        (match out.fin with
         | .completed => [(out.fetched, total)]
         | _ => [])
      polls := out.polls
      error? := match out.fin with
        | .errored e => some e
        | _ => none }

/-! ## Specification-side helpers

Functions used only to state properties: a page oracle presenting a chosen
split of the catalog, the songCount sum of a list of albums, and the songs
pass 2 is expected to yield per album. -/

/-- The `get_album_list2` results a server holding the catalog split into
`pages` produces: offset `i * page_size` returns chunk `i`, every other
offset an empty page. -/
def pagesOracle (pages : List (List Json)) (page_size : Nat) :
    Nat → Except PyExc (List Json) :=
  fun offset =>
    .ok (if page_size ≠ 0 ∧ offset % page_size = 0 then
           pages.getD (offset / page_size) []
         else [])

/-- The reported-songCount contribution of one album (0 when the count is
missing or unconvertible). -/
def reportedCount (album : Json) : Int :=
  match album with
  | .obj fields => (pyInt (dictGetD fields "songCount" (.num 0))).getD 0
  | _ => 0

/-- The sum of reported songCounts over a catalog. -/
def listTotal (albums : List Json) : Int :=
  (albums.map reportedCount).sum

/-- The songs pass 2 obtains for one album: none when the id is empty, the
`get_album` result when it succeeds, none when it raises (the skip). -/
def albumFetchedSongs (ga : String → Except PyExc (List Json)) (album : Json) :
    List Json :=
  match album with
  | .obj fields =>
    let album_id := pyStr (dictGetD fields "id" (.str ""))
    if album_id = "" then []
    else
      match ga album_id with
      | .ok songs => songs
      | .error _ => []
  | _ => []

/-- The condition under which, per the claim, `create_playlist` returns no
id: the envelope's `playlist` field is missing, is not an object, or carries
a missing or empty id. -/
def playlistIdMissingOrEmpty (resp : JObj) : Bool :=
  match dictGet resp "playlist" with
  | none => true
  | some (.obj fields) =>
    match dictGet fields "id" with
    | none => true
    | some idv => pyStr idv == ""
  | some _ => true

/-! # Theorems -/

/-- The first character of a string survives appending on the right. -/
theorem string_head_append (a b : String) (c : Char)
    (h : a.data.head? = some c) : (a ++ b).data.head? = some c := by
  have hd : (a ++ b).data = a.data ++ b.data := rfl
  cases he : a.data with
  | nil => rw [he] at h; cases h
  | cons x xs =>
    rw [he] at h
    simp only [List.head?_cons, Option.some.injEq] at h
    subst h
    rw [hd, he]
    rfl

/-- Looking up the key just stored hits it. -/
theorem cacheGet_dictSet_self (c : Cache) (k : String) (v : Json) :
    cacheGet (dictSet c k v) k = some v := by
  induction c with
  | nil => simp [cacheGet, dictSet]
  | cons p rest ih =>
    by_cases h : p.1 == k
    · simp [dictSet, h, cacheGet]
    · simp only [dictSet, h, Bool.false_eq_true, if_false]
      simpa [cacheGet, List.find?_cons, h] using ih

/-- C1.  With caching enabled, a second `get_album_list2` call with the same
base URL, list type, size and offset, run against the cache the first call
left behind, invokes the request function zero times and returns exactly the
first call's value. -/
theorem get_album_list2_second_call_cached (base_url : String) (req : ReqFun)
    (c : Cache) (list_type : String) (size offset : Int) (v : Json)
    (h : (get_album_list2 base_url req (some c) list_type size offset).1 = .ok v) :
    (get_album_list2 base_url req
        (get_album_list2 base_url req (some c) list_type size offset).2.1
        list_type size offset).1 = .ok v ∧
    (get_album_list2 base_url req
        (get_album_list2 base_url req (some c) list_type size offset).2.1
        list_type size offset).2.2 = 0 := by
  unfold get_album_list2 at h ⊢
  rcases hget : cacheGet c (base_url ++ "_album_list2_" ++ list_type ++ "_"
      ++ toString size ++ "_" ++ toString offset) with _ | v0
  · rcases hreq : req "/rest/getAlbumList2.view"
        [("type", list_type), ("size", toString size), ("offset", toString offset)] []
      with e | resp
    · simp [hget, hreq] at h
    · rcases hex : extractListField resp "albumList2" "album" with e | albums
      · simp [hget, hreq, hex] at h
      · simp only [hget, hreq, hex] at h
        simp only [Except.ok.injEq] at h
        subst h
        simp [hget, hreq, hex, cacheSet, cacheGet_dictSet_self]
  · simp only [hget] at h
    simp only [Except.ok.injEq] at h
    subst h
    simp [hget]

/-- C1 witness: a concrete first call that fetches and caches an empty album
list; the second call is a hit. -/
theorem get_album_list2_second_call_cached_witness :
    (get_album_list2 "http://x" (fun _ _ _ =>
        .ok [("albumList2", Json.obj [("album", Json.arr [])])]) (some [])
        "alphabeticalByName" 2 0).1 = .ok (.arr []) ∧
    ((get_album_list2 "http://x" (fun _ _ _ =>
        .ok [("albumList2", Json.obj [("album", Json.arr [])])])
        (get_album_list2 "http://x" (fun _ _ _ =>
          .ok [("albumList2", Json.obj [("album", Json.arr [])])]) (some [])
          "alphabeticalByName" 2 0).2.1
        "alphabeticalByName" 2 0).1 = .ok (.arr []) ∧
     (get_album_list2 "http://x" (fun _ _ _ =>
        .ok [("albumList2", Json.obj [("album", Json.arr [])])])
        (get_album_list2 "http://x" (fun _ _ _ =>
          .ok [("albumList2", Json.obj [("album", Json.arr [])])]) (some [])
          "alphabeticalByName" 2 0).2.1
        "alphabeticalByName" 2 0).2.2 = 0) :=
  ⟨rfl, get_album_list2_second_call_cached "http://x" _ [] "alphabeticalByName" 2 0
    (.arr []) rfl⟩

/-- C9.  After `clear_cache`, the next call to each cached operation misses
the (now empty) cache for every previously cached key and invokes the
request function exactly once. -/
theorem clear_cache_forces_refetch (c : Cache) (base_url : String) (req : ReqFun)
    (list_type : String) (size offset : Int) (album_id : String) :
    cacheGet (cacheClear c) (base_url ++ "_album_list2_" ++ list_type ++ "_"
      ++ toString size ++ "_" ++ toString offset) = none ∧
    (get_album_list2 base_url req (some (cacheClear c)) list_type size offset).2.2 = 1 ∧
    cacheGet (cacheClear c) (base_url ++ "_album_" ++ album_id) = none ∧
    (get_album base_url req (some (cacheClear c)) album_id).2.2 = 1 := by
  refine ⟨rfl, ?_, rfl, ?_⟩
  · unfold get_album_list2
    rcases hreq : req "/rest/getAlbumList2.view"
        [("type", list_type), ("size", toString size), ("offset", toString offset)] []
      with e | resp
    · simp [cacheClear, cacheGet, hreq]
    · rcases hex : extractListField resp "albumList2" "album" with e | albums
      · simp [cacheClear, cacheGet, hreq, hex]
      · simp [cacheClear, cacheGet, hreq, hex]
  · unfold get_album
    rcases hreq : req "/rest/getAlbum.view" [("id", album_id)] [] with e | resp
    · simp [cacheClear, cacheGet, hreq]
    · rcases hex : extractListField resp "album" "song" with e | songs
      · simp [cacheClear, cacheGet, hreq, hex]
      · simp [cacheClear, cacheGet, hreq, hex]

/-- C4.  Each list-shaped response field (`album.song`,
`playlists.playlist`, `playlist.entry`, `searchResult3.song`,
`albumList2.album`) arriving as a single object is returned as a one-element
sequence containing it; arriving as an array it is returned as-is. -/
theorem list_fields_singleton_normalized (fields : JObj) (xs : List Json)
    (base_url playlist_id album_id query list_type : String)
    (count offset size : Int) :
    (get_album base_url
        (fun _ _ _ => .ok [("album", Json.obj [("song", Json.obj fields)])])
        none album_id).1 = .ok (.arr [.obj fields]) ∧
    (get_album base_url
        (fun _ _ _ => .ok [("album", Json.obj [("song", Json.arr xs)])])
        none album_id).1 = .ok (.arr xs) ∧
    get_playlists
        (fun _ _ _ => .ok [("playlists", Json.obj [("playlist", Json.obj fields)])])
      = .ok (.arr [.obj fields]) ∧
    get_playlists
        (fun _ _ _ => .ok [("playlists", Json.obj [("playlist", Json.arr xs)])])
      = .ok (.arr xs) ∧
    get_playlist_tracks
        (fun _ _ _ => .ok [("playlist", Json.obj [("entry", Json.obj fields)])])
        playlist_id
      = .ok (.arr [.obj fields]) ∧
    get_playlist_tracks
        (fun _ _ _ => .ok [("playlist", Json.obj [("entry", Json.arr xs)])])
        playlist_id
      = .ok (.arr xs) ∧
    search_songs
        (fun _ _ _ => .ok [("searchResult3", Json.obj [("song", Json.obj fields)])])
        query count offset
      = .ok (.arr [.obj fields]) ∧
    search_songs
        (fun _ _ _ => .ok [("searchResult3", Json.obj [("song", Json.arr xs)])])
        query count offset
      = .ok (.arr xs) ∧
    (get_album_list2 base_url
        (fun _ _ _ => .ok [("albumList2", Json.obj [("album", Json.obj fields)])])
        none list_type size offset).1 = .ok (.arr [.obj fields]) ∧
    (get_album_list2 base_url
        (fun _ _ _ => .ok [("albumList2", Json.obj [("album", Json.arr xs)])])
        none list_type size offset).1 = .ok (.arr xs) :=
  ⟨rfl, rfl, rfl, rfl, rfl, rfl, rfl, rfl, rfl, rfl⟩

/-- Merging a Python dict whose keys are fresh appends its entries. -/
theorem pyDictMerge_eq_append (a b : List (String × String))
    (hnodup : (b.map Prod.fst).Nodup)
    (hdisj : ∀ p ∈ b, ∀ q ∈ a, p.1 ≠ q.1) :
    pyDictMerge a b = a ++ b := by
  induction b generalizing a with
  | nil => simp [pyDictMerge]
  | cons p b' ih =>
    have hnd : p.1 ∉ b'.map Prod.fst ∧ (b'.map Prod.fst).Nodup := by
      rw [List.map_cons, List.nodup_cons] at hnodup
      exact hnodup
    have hnot : a.any (fun q => q.1 == p.1) = false := by
      rw [List.any_eq_false]
      intro q hq
      simpa using (hdisj p (List.mem_cons_self p b') q hq).symm
    have hstep : pyDictMerge a (p :: b') = pyDictMerge (a ++ [p]) b' := by
      unfold pyDictMerge
      rw [List.foldl_cons]
      congr 1
      simp [hnot]
    rw [hstep, ih (a ++ [p]) hnd.2 ?_]
    · simp
    · intro p' hp' q hq
      rcases List.mem_append.mp hq with hq | hq
      · exact hdisj p' (List.mem_cons_of_mem p hp') q hq
      · have hqp : q = p := by simpa using hq
        subst hqp
        intro hcontra
        exact hnd.1 (hcontra ▸ List.mem_map_of_mem Prod.fst hp')

/-- C6.  A POST body built with a non-empty song-id list consists of all
other parameters — the auth parameters then the caller parameters — followed
by one `songId` pair per id in input order (the call sites never reuse an
auth key, stated here as the disjointness hypothesis). -/
theorem post_body_song_ids_order (username token salt api_version app_name : String)
    (params : List (String × String)) (song_ids : List String)
    (hne : song_ids ≠ [])
    (hnodup : (params.map Prod.fst).Nodup)
    (hdisj : ∀ p ∈ params, p.1 ∉ ["u", "t", "s", "v", "c", "f"]) :
    requestBodyPairs (auth_params username token salt api_version app_name)
        params song_ids
      = auth_params username token salt api_version app_name ++ params
        ++ song_ids.map (fun sid => ("songId", sid)) ∧
    requestBody (auth_params username token salt api_version app_name)
        params song_ids
      = urlencodePairs (auth_params username token salt api_version app_name
        ++ params ++ song_ids.map (fun sid => ("songId", sid))) := by
  have hm : pyDictMerge (auth_params username token salt api_version app_name) params
      = auth_params username token salt api_version app_name ++ params := by
    apply pyDictMerge_eq_append _ _ hnodup
    intro p hp q hq
    have hmem := hdisj p hp
    simp only [auth_params, List.mem_cons, List.not_mem_nil, or_false] at hq
    simp only [List.mem_cons, List.not_mem_nil, not_or, or_false] at hmem
    rcases hq with rfl | rfl | rfl | rfl | rfl | rfl <;> simp_all
  have h1 : requestBodyPairs (auth_params username token salt api_version app_name)
      params song_ids
      = auth_params username token salt api_version app_name ++ params
        ++ song_ids.map (fun sid => ("songId", sid)) := by
    cases song_ids with
    | nil => exact absurd rfl hne
    | cons s rest => simp [requestBodyPairs, hm]
  exact ⟨h1, by rw [requestBody, h1]⟩

/-- C6 witness: a concrete `createPlaylist`-shaped body. -/
theorem post_body_song_ids_order_witness :
    (["s1", "s2"] : List String) ≠ [] ∧
    (([("name", "X")] : List (String × String)).map Prod.fst).Nodup ∧
    (∀ p ∈ ([("name", "X")] : List (String × String)),
      p.1 ∉ ["u", "t", "s", "v", "c", "f"]) ∧
    requestBodyPairs (auth_params "u1" "tok" "sa" "1.16.1" "app")
        [("name", "X")] ["s1", "s2"]
      = auth_params "u1" "tok" "sa" "1.16.1" "app" ++ [("name", "X")]
        ++ (["s1", "s2"] : List String).map (fun sid => ("songId", sid)) :=
  ⟨by simp, by simp, by decide,
    (post_body_song_ids_order "u1" "tok" "sa" "1.16.1" "app"
      [("name", "X")] ["s1", "s2"] (by simp) (by simp) (by decide)).1⟩

/-- `create_playlist` on a successful request, as a function of the
envelope. -/
theorem create_playlist_ok_eq (name : String) (song_ids : List String)
    (resp : JObj) :
    create_playlist (fun _ _ _ => .ok resp) name song_ids
      = .ok (match dictGetD resp "playlist" (.obj []) with
             | .obj fields =>
               if pyStr (dictGetD fields "id" (.str "")) = "" then none
               else some (pyStr (dictGetD fields "id" (.str "")))
             | _ => none) := by
  cases h : dictGetD resp "playlist" (.obj []) with
  | obj fields => simp only [create_playlist, h]
  | null => simp only [create_playlist, h]; rfl
  | bool b => simp only [create_playlist, h]; rfl
  | num n => simp only [create_playlist, h]; rfl
  | str str => simp only [create_playlist, h]; rfl
  | arr xs => simp only [create_playlist, h]; rfl

/-- C10.  A successful `create_playlist` returns no id exactly when the
envelope's `playlist` field is missing, is not an object, or carries a
missing or empty id; otherwise it returns the non-empty string form of that
id. -/
theorem create_playlist_returned_id (name : String) (song_ids : List String)
    (resp : JObj) :
    (create_playlist (fun _ _ _ => .ok resp) name song_ids = .ok none ↔
      playlistIdMissingOrEmpty resp = true) ∧
    (playlistIdMissingOrEmpty resp = false →
      ∃ fields idv, dictGet resp "playlist" = some (.obj fields) ∧
        dictGet fields "id" = some idv ∧
        create_playlist (fun _ _ _ => .ok resp) name song_ids
          = .ok (some (pyStr idv)) ∧
        pyStr idv ≠ "") := by
  rw [create_playlist_ok_eq]
  rcases hpl : dictGet resp "playlist" with _ | v
  · have h1 : dictGetD resp "playlist" (Json.obj []) = Json.obj [] := by
      unfold dictGetD; rw [hpl]; rfl
    simp only [h1]
    constructor
    · constructor
      · intro _
        simp [playlistIdMissingOrEmpty, hpl]
      · intro _
        trivial
    · intro hf
      exfalso
      simp [playlistIdMissingOrEmpty, hpl] at hf
  · cases v with
    | obj fields =>
      have h1 : dictGetD resp "playlist" (Json.obj []) = Json.obj fields := by
        unfold dictGetD; rw [hpl]; rfl
      simp only [h1]
      rcases hid : dictGet fields "id" with _ | idv
      · have h2 : dictGetD fields "id" (Json.str "") = Json.str "" := by
          unfold dictGetD; rw [hid]; rfl
        simp only [h2]
        constructor
        · constructor
          · intro _
            simp [playlistIdMissingOrEmpty, hpl, hid]
          · intro _
            trivial
        · intro hf
          exfalso
          simp [playlistIdMissingOrEmpty, hpl, hid] at hf
      · have h2 : dictGetD fields "id" (Json.str "") = idv := by
          unfold dictGetD; rw [hid]; rfl
        simp only [h2]
        by_cases hs : pyStr idv = ""
        · rw [if_pos hs]
          constructor
          · constructor
            · intro _
              simp [playlistIdMissingOrEmpty, hpl, hid, hs]
            · intro _
              rfl
          · intro hf
            exfalso
            simp [playlistIdMissingOrEmpty, hpl, hid, hs] at hf
        · rw [if_neg hs]
          constructor
          · constructor
            · intro hc
              exact absurd hc (by simp)
            · intro ht
              exfalso
              simp [playlistIdMissingOrEmpty, hpl, hid] at ht
              exact hs ht
          · intro _
            exact ⟨fields, idv, rfl, hid, rfl, hs⟩
    | null =>
      have h1 : dictGetD resp "playlist" (Json.obj []) = Json.null := by
        unfold dictGetD; rw [hpl]; rfl
      simp only [h1]
      constructor
      · constructor
        · intro _
          simp [playlistIdMissingOrEmpty, hpl]
        · intro _
          trivial
      · intro hf
        exfalso
        simp [playlistIdMissingOrEmpty, hpl] at hf
    | bool b =>
      have h1 : dictGetD resp "playlist" (Json.obj []) = Json.bool b := by
        unfold dictGetD; rw [hpl]; rfl
      simp only [h1]
      constructor
      · constructor
        · intro _
          simp [playlistIdMissingOrEmpty, hpl]
        · intro _
          trivial
      · intro hf
        exfalso
        simp [playlistIdMissingOrEmpty, hpl] at hf
    | num n =>
      have h1 : dictGetD resp "playlist" (Json.obj []) = Json.num n := by
        unfold dictGetD; rw [hpl]; rfl
      simp only [h1]
      constructor
      · constructor
        · intro _
          simp [playlistIdMissingOrEmpty, hpl]
        · intro _
          trivial
      · intro hf
        exfalso
        simp [playlistIdMissingOrEmpty, hpl] at hf
    | str sv =>
      have h1 : dictGetD resp "playlist" (Json.obj []) = Json.str sv := by
        unfold dictGetD; rw [hpl]; rfl
      simp only [h1]
      constructor
      · constructor
        · intro _
          simp [playlistIdMissingOrEmpty, hpl]
        · intro _
          trivial
      · intro hf
        exfalso
        simp [playlistIdMissingOrEmpty, hpl] at hf
    | arr ys =>
      have h1 : dictGetD resp "playlist" (Json.obj []) = Json.arr ys := by
        unfold dictGetD; rw [hpl]; rfl
      simp only [h1]
      constructor
      · constructor
        · intro _
          simp [playlistIdMissingOrEmpty, hpl]
        · intro _
          trivial
      · intro hf
        exfalso
        simp [playlistIdMissingOrEmpty, hpl] at hf


/-- C10 witness: a playlist object carrying id `"7"` yields `some "7"`. -/
theorem create_playlist_returned_id_witness :
    playlistIdMissingOrEmpty [("playlist", Json.obj [("id", Json.str "7")])] = false ∧
    (∃ fields idv,
      dictGet [("playlist", Json.obj [("id", Json.str "7")])] "playlist"
        = some (.obj fields) ∧
      dictGet fields "id" = some idv ∧
      create_playlist
          (fun _ _ _ => .ok [("playlist", Json.obj [("id", Json.str "7")])])
          "X" ["a", "b"]
        = .ok (some (pyStr idv)) ∧
      pyStr idv ≠ "") :=
  ⟨rfl, (create_playlist_returned_id "X" ["a", "b"]
      [("playlist", Json.obj [("id", Json.str "7")])]).2 rfl⟩

/-- C7 counterexample: a body that parses as JSON but lacks the
`subsonic-response` key makes `_request` raise
`ValueError("Unexpected response: missing 'subsonic-response'")` — a message
that, contrary to the claim, does not mention the endpoint name. -/
theorem missing_envelope_no_endpoint :
    request "/rest/ping.view" (.payload [("foo", Json.null)])
      = .error (.valueError missingEnvelopeMsg) ∧
    ¬ ("/rest/ping.view".data <:+: missingEnvelopeMsg.data) :=
  ⟨rfl, by decide⟩

/-- C7 amended.  A JSON body lacking the top-level `subsonic-response` key
fails with an error whose message is distinct from every network-error and
application-error message (they start with different words), but the message
does not mention the endpoint: no endpoint (every endpoint `_request` uses
starts with `/`) occurs in it. -/
theorem missing_envelope_error_distinct (endpoint : String) (payload : JObj)
    (hend : endpoint.data.head? = some '/')
    (hmiss : dictGet payload "subsonic-response" = none) :
    request endpoint (.payload payload) = .error (.valueError missingEnvelopeMsg) ∧
    (∀ e exc, missingEnvelopeMsg ≠ httpErrorMsg e exc) ∧
    (∀ e exc, missingEnvelopeMsg ≠ invalidJsonMsg e exc) ∧
    (∀ code message, missingEnvelopeMsg ≠ subsonicErrorMsg code message) ∧
    ¬ (endpoint.data <:+: missingEnvelopeMsg.data) := by
  refine ⟨?_, ?_, ?_, ?_, ?_⟩
  · show checkEnvelope payload = .error (.valueError missingEnvelopeMsg)
    unfold checkEnvelope
    rw [hmiss]
  · intro e exc h
    have hh : missingEnvelopeMsg.data.head? = (httpErrorMsg e exc).data.head? := by
      rw [h]
    rw [show (httpErrorMsg e exc).data.head? = some 'H' from
      string_head_append _ _ _ (string_head_append _ _ _
        (string_head_append _ _ _ rfl))] at hh
    exact absurd hh (by decide)
  · intro e exc h
    have hh : missingEnvelopeMsg.data.head? = (invalidJsonMsg e exc).data.head? := by
      rw [h]
    rw [show (invalidJsonMsg e exc).data.head? = some 'I' from
      string_head_append _ _ _ (string_head_append _ _ _
        (string_head_append _ _ _ rfl))] at hh
    exact absurd hh (by decide)
  · intro code message h
    have hh : missingEnvelopeMsg.data.head? = (subsonicErrorMsg code message).data.head? := by
      rw [h]
    rw [show (subsonicErrorMsg code message).data.head? = some 'S' from
      string_head_append _ _ _ (string_head_append _ _ _
        (string_head_append _ _ _ rfl))] at hh
    exact absurd hh (by decide)
  · intro hinf
    have hmem : '/' ∈ endpoint.data := by
      cases he : endpoint.data with
      | nil => rw [he] at hend; exact Option.noConfusion hend
      | cons x xs =>
        rw [he] at hend
        simp only [List.head?_cons, Option.some.injEq] at hend
        subst hend
        exact List.mem_cons_self _ _
    have : '/' ∈ missingEnvelopeMsg.data := hinf.subset hmem
    revert this
    decide

/-- C7 amended witness: the endpoint `"/rest/ping.view"` against the payload
`{"foo": null}`. -/
theorem missing_envelope_error_distinct_witness :
    ("/rest/ping.view".data.head? = some '/') ∧
    (dictGet [("foo", Json.null)] "subsonic-response" = none) ∧
    (request "/rest/ping.view" (.payload [("foo", Json.null)])
        = .error (.valueError missingEnvelopeMsg) ∧
      (∀ e exc, missingEnvelopeMsg ≠ httpErrorMsg e exc) ∧
      (∀ e exc, missingEnvelopeMsg ≠ invalidJsonMsg e exc) ∧
      (∀ code message, missingEnvelopeMsg ≠ subsonicErrorMsg code message) ∧
      ¬ ("/rest/ping.view".data <:+: missingEnvelopeMsg.data)) :=
  ⟨rfl, rfl, missing_envelope_error_distinct "/rest/ping.view"
    [("foo", Json.null)] rfl rfl⟩

/-- `listTotal` is additive over concatenation. -/
theorem listTotal_append (a b : List Json) :
    listTotal (a ++ b) = listTotal a + listTotal b := by
  simp [listTotal]

/-- On a page of objects, the `page_song_count` loop succeeds and sums the
reported counts. -/
theorem pageCount_ok (l : List Json) (h : ∀ a ∈ l, a.isObj = true) :
    pageCount l = .ok (listTotal l) := by
  induction l with
  | nil => rfl
  | cons a rest ih =>
    have ha : a.isObj = true := h a (List.mem_cons_self a rest)
    have hr := ih (fun x hx => h x (List.mem_cons_of_mem a hx))
    cases a with
    | obj fields =>
      simp [pageCount, songCountVal, hr, listTotal, reportedCount]
    | null => simp [Json.isObj] at ha
    | bool b => simp [Json.isObj] at ha
    | num n => simp [Json.isObj] at ha
    | str sv => simp [Json.isObj] at ha
    | arr ys => simp [Json.isObj] at ha

/-- Pass 1 walking a catalog split into pages: if every non-final page has
exactly the page size, all albums are objects, and enough iterations remain,
pass 1 finishes with the songCount sum and the concatenation of the pages. -/
theorem pass1_done_of_pages (ps : Nat) (hps : 0 < ps) (cancel : Nat → Bool)
    (hc : ∀ j, cancel j = false) (pages : List (List Json)) :
    ∀ (lp : Nat → Except PyExc (List Json)) (fuel k polls : Nat) (total : Int)
      (acc : List Json),
    pages.length ≤ fuel →
    (∀ i, i < pages.length → lp ((k + i) * ps) = .ok (pages.getD i [])) →
    lp ((k + pages.length) * ps) = .ok [] →
    (∀ i, i < pages.length - 1 → (pages.getD i []).length = ps) →
    (∀ a ∈ pages.flatten, a.isObj = true) →
    (pass1 lp cancel ps fuel (k * ps) polls total acc).total?
        = some (total + listTotal pages.flatten) ∧
    (pass1 lp cancel ps fuel (k * ps) polls total acc).albums?
        = some (acc ++ pages.flatten) := by
  induction pages with
  | nil =>
    intro lp fuel k polls total acc hfuel hlp hempty hlen hobj
    cases fuel with
    | zero => simp [pass1, Pass1Out.total?, Pass1Out.albums?, listTotal]
    | succ fuel =>
      have h0 : lp (k * ps) = .ok [] := by simpa using hempty
      simp [pass1, hc, h0, Pass1Out.total?, Pass1Out.albums?, listTotal]
  | cons page rest ih =>
    intro lp fuel k polls total acc hfuel hlp hempty hlen hobj
    cases fuel with
    | zero => simp at hfuel
    | succ fuel =>
      have hpage : lp (k * ps) = .ok page := by
        have h := hlp 0 (by simp)
        simpa using h
      have hobjp : ∀ a ∈ page, a.isObj = true := by
        intro a hax
        exact hobj a (by simp [hax])
      have hobjr : ∀ a ∈ rest.flatten, a.isObj = true := by
        intro a hax
        exact hobj a (by simp [hax])
      by_cases hrest : rest = []
      · -- a single final page: the loop breaks after it (or immediately if
        -- it is empty, or after the extra empty fetch when it is full)
        subst hrest
        by_cases hpe : page = []
        · subst hpe
          simp [pass1, hc, hpage, Pass1Out.total?, Pass1Out.albums?, listTotal]
        · have hcount := pageCount_ok page hobjp
          by_cases hshort : page.length < ps
          · simp [pass1, hc, hpage, List.isEmpty_iff, hpe, hcount, hshort,
              Pass1Out.total?, Pass1Out.albums?]
          · have hvia : lp ((k + 1) * ps) = .ok [] := by simpa using hempty
            have hnext : k * ps + ps = (k + 1) * ps := by ring
            cases fuel with
            | zero =>
              simp [pass1, hc, hpage, List.isEmpty_iff, hpe, hcount, hshort,
                Pass1Out.total?, Pass1Out.albums?]
            | succ fuel =>
              simp [pass1, hc, hpage, List.isEmpty_iff, hpe, hcount, hshort,
                hnext, hvia, Pass1Out.total?, Pass1Out.albums?]
      · -- a non-final page: it has exactly the page size, so the loop
        -- continues with the next offset
        have hrpos : 0 < rest.length := List.length_pos.mpr hrest
        have hfull : page.length = ps := by
          have h := hlen 0 (by simp [hrpos])
          simpa using h
        have hpe : page ≠ [] := by
          intro hp
          rw [hp] at hfull
          simp at hfull
          omega
        have hcount := pageCount_ok page hobjp
        have hns : ¬ page.length < ps := by omega
        have hnext : k * ps + ps = (k + 1) * ps := by ring
        have hfuel2 : rest.length ≤ fuel := by
          simp at hfuel
          omega
        have hlp2 : ∀ i, i < rest.length → lp ((k + 1 + i) * ps) = .ok (rest.getD i []) := by
          intro i hi
          have h := hlp (i + 1) (by simp; omega)
          have he : k + (i + 1) = k + 1 + i := by omega
          rw [he] at h
          simpa using h
        have hempty2 : lp ((k + 1 + rest.length) * ps) = .ok [] := by
          have he : k + (page :: rest).length = k + 1 + rest.length := by
            simp
            omega
          rw [he] at hempty
          exact hempty
        have hlen2 : ∀ i, i < rest.length - 1 → (rest.getD i []).length = ps := by
          intro i hi
          have h := hlen (i + 1) (by simp; omega)
          simpa using h
        have hrec := ih lp fuel (k + 1) (polls + 1) (total + listTotal page)
          (acc ++ page) hfuel2 hlp2 hempty2 hlen2 hobjr
        have hstep : pass1 lp cancel ps (fuel + 1) (k * ps) polls total acc
            = pass1 lp cancel ps fuel ((k + 1) * ps) (polls + 1)
                (total + listTotal page) (acc ++ page) := by
          simp [pass1, hc, hpage, List.isEmpty_iff, hpe, hcount, hns, hnext]
        rw [hstep]
        constructor
        · rw [hrec.1]
          congr 1
          simp [listTotal_append]
          ring
        · rw [hrec.2]
          simp

/-- C5.  Pass 1's total equals the sum of the albums' reported songCount
values, for every split of the catalog into pages obeying the pagination
protocol (each non-final page full, the page count within the cap). -/
theorem pass1_total_eq_sum (pages : List (List Json)) (page_size max_pages : Nat)
    (hps : 0 < page_size)
    (hfuel : pages.length ≤ max_pages)
    (hlen : ∀ i, i < pages.length - 1 → (pages.getD i []).length = page_size)
    (hobj : ∀ a ∈ pages.flatten, a.isObj = true) :
    (pass1 (pagesOracle pages page_size) (fun _ => false) page_size max_pages
        0 0 0 []).total? = some (listTotal pages.flatten) := by
  have h := pass1_done_of_pages page_size hps (fun _ => false) (fun _ => rfl)
    pages (pagesOracle pages page_size) max_pages 0 0 0 [] hfuel ?_ ?_ hlen hobj
  · have h0 : (0 : Nat) * page_size = 0 := by ring
    rw [h0] at h
    rw [h.1]
    simp
  · intro i hi
    show pagesOracle pages page_size ((0 + i) * page_size) = .ok (pages.getD i [])
    unfold pagesOracle
    congr 1
    rw [if_pos ⟨by omega, by rw [Nat.zero_add]; exact Nat.mul_mod_left i page_size⟩]
    rw [Nat.zero_add, Nat.mul_div_left i hps]
  · show pagesOracle pages page_size ((0 + pages.length) * page_size) = .ok []
    unfold pagesOracle
    congr 1
    rw [if_pos ⟨by omega,
      by rw [Nat.zero_add]; exact Nat.mul_mod_left pages.length page_size⟩]
    rw [Nat.zero_add, Nat.mul_div_left pages.length hps]
    exact List.getD_eq_default _ _ (le_refl _)

/-- C5 witness: reported counts `[3, 5, 0, 2]` under two different page
splits (two pages of two with page size 2; three-plus-one with page size 3)
both give pass-1 total 10. -/
theorem pass1_total_eq_sum_witness :
    ((0 : Nat) < 2 ∧
      ([[Json.obj [("id", Json.str "a"), ("songCount", Json.num 3)],
         Json.obj [("id", Json.str "b"), ("songCount", Json.num 5)]],
        [Json.obj [("id", Json.str "c"), ("songCount", Json.num 0)],
         Json.obj [("id", Json.str "d"), ("songCount", Json.num 2)]]]
          : List (List Json)).length ≤ 10 ∧
      (pass1 (pagesOracle
          [[Json.obj [("id", Json.str "a"), ("songCount", Json.num 3)],
            Json.obj [("id", Json.str "b"), ("songCount", Json.num 5)]],
           [Json.obj [("id", Json.str "c"), ("songCount", Json.num 0)],
            Json.obj [("id", Json.str "d"), ("songCount", Json.num 2)]]] 2)
          (fun _ => false) 2 10 0 0 0 []).total? = some 10) ∧
    (pass1 (pagesOracle
        [[Json.obj [("id", Json.str "a"), ("songCount", Json.num 3)],
          Json.obj [("id", Json.str "b"), ("songCount", Json.num 5)],
          Json.obj [("id", Json.str "c"), ("songCount", Json.num 0)]],
         [Json.obj [("id", Json.str "d"), ("songCount", Json.num 2)]]] 3)
        (fun _ => false) 3 10 0 0 0 []).total? = some 10 := by
  refine ⟨⟨by decide, by decide, ?_⟩, ?_⟩
  · rw [pass1_total_eq_sum _ 2 10 (by decide) (by decide)
      (by decide) (by decide)]
    rfl
  · rw [pass1_total_eq_sum _ 3 10 (by decide) (by decide)
      (by decide) (by decide)]
    rfl

/-- With no cancellation, the per-song loop yields exactly the album's
songs and never stops early. -/
theorem yieldSongs_no_cancel (total : Int) (songs : List Json) :
    ∀ polls fetched,
    (yieldSongs (fun _ => false) total songs polls fetched).ys.map Prod.snd
        = songs ∧
    (yieldSongs (fun _ => false) total songs polls fetched).stopped = false := by
  induction songs with
  | nil =>
    intro polls fetched
    exact ⟨rfl, rfl⟩
  | cons s rest ih =>
    intro polls fetched
    have h := ih (polls + 1) (fetched + 1)
    simp [yieldSongs, h.1, h.2]

/-- With no cancellation and a catalog of objects, pass 2 completes (no
exception escapes) and yields, in order, exactly the songs `get_album`
delivered for each album — an album whose fetch raised contributing
nothing. -/
theorem pass2_no_cancel (ga : String → Except PyExc (List Json)) (total : Int)
    (albums : List Json) (hobj : ∀ a ∈ albums, a.isObj = true) :
    ∀ polls fetched,
    (pass2 ga (fun _ => false) total albums polls fetched).ys.map Prod.snd
        = albums.flatMap (albumFetchedSongs ga) ∧
    (pass2 ga (fun _ => false) total albums polls fetched).fin = .completed := by
  induction albums with
  | nil =>
    intro polls fetched
    exact ⟨rfl, rfl⟩
  | cons album rest ih =>
    intro polls fetched
    have ha : album.isObj = true := hobj album (List.mem_cons_self album rest)
    have ihr := ih (fun x hx => hobj x (List.mem_cons_of_mem album hx))
    cases album with
    | obj fields =>
      by_cases hid : pyStr (dictGetD fields "id" (Json.str "")) = ""
      · have h := ihr (polls + 1) fetched
        simp [pass2, albumIdOf, hid, albumFetchedSongs, h.1, h.2]
      · have hy := yieldSongs_no_cancel total
          (match ga (pyStr (dictGetD fields "id" (Json.str ""))) with
            | .ok songs => songs
            | .error _ => []) (polls + 1) fetched
        have h := ihr (yieldSongs (fun _ => false) total
          (match ga (pyStr (dictGetD fields "id" (Json.str ""))) with
            | .ok songs => songs
            | .error _ => []) (polls + 1) fetched).polls
          (yieldSongs (fun _ => false) total
          (match ga (pyStr (dictGetD fields "id" (Json.str ""))) with
            | .ok songs => songs
            | .error _ => []) (polls + 1) fetched).fetched
        simp [pass2, albumIdOf, hid, albumFetchedSongs, hy.1, hy.2, h.1, h.2]
    | null => simp [Json.isObj] at ha
    | bool b => simp [Json.isObj] at ha
    | num n => simp [Json.isObj] at ha
    | str sv => simp [Json.isObj] at ha
    | arr ys => simp [Json.isObj] at ha

/-- C8.  In pass 2 a failing `get_album` makes that album contribute no
songs while traversal completes over all remaining albums with no error
escaping the generator; every other catalog operation propagates a failure
of its request unchanged. -/
theorem failed_album_skipped_and_errors_propagate
    (ga : String → Except PyExc (List Json)) (total : Int)
    (albums : List Json) (polls fetched : Nat)
    (hobj : ∀ a ∈ albums, a.isObj = true) :
    ((pass2 ga (fun _ => false) total albums polls fetched).ys.map Prod.snd
        = albums.flatMap (albumFetchedSongs ga) ∧
      (pass2 ga (fun _ => false) total albums polls fetched).fin = .completed) ∧
    (∀ req e, req "/rest/ping.view" [] [] = .error e → ping req = .error e) ∧
    (∀ req e, req "/rest/getPlaylists.view" [] [] = .error e →
      get_playlists req = .error e) ∧
    (∀ req e pid, req "/rest/getPlaylist.view" [("id", pid)] [] = .error e →
      get_playlist_tracks req pid = .error e) ∧
    (∀ req e nm sids, req "/rest/createPlaylist.view" [("name", nm)] sids
        = .error e → create_playlist req nm sids = .error e) ∧
    (∀ req e pid nm pub,
      req "/rest/updatePlaylist.view"
          ([("playlistId", pid)]
            ++ (match nm with | some n => [("name", n)] | none => [])
            ++ (match pub with
                | some b => [("public", if b then "true" else "false")]
                | none => [])) [] = .error e →
      update_playlist req pid nm pub = .error e) ∧
    (∀ req e pid, req "/rest/deletePlaylist.view" [("id", pid)] [] = .error e →
      delete_playlist req pid = .error e) ∧
    (∀ req e q cnt off,
      req "/rest/search3.view"
          [("query", q), ("songCount", toString cnt),
           ("songOffset", toString off)] [] = .error e →
      search_songs req q cnt off = .error e) ∧
    (∀ base req e lt size off,
      req "/rest/getAlbumList2.view"
          [("type", lt), ("size", toString size), ("offset", toString off)] []
        = .error e →
      (get_album_list2 base req (some []) lt size off).1 = .error e) ∧
    (∀ base req e aid,
      req "/rest/getAlbum.view" [("id", aid)] [] = .error e →
      (get_album base req (some []) aid).1 = .error e) := by
  refine ⟨pass2_no_cancel ga total albums hobj polls fetched,
    ?_, ?_, ?_, ?_, ?_, ?_, ?_, ?_, ?_⟩
  · intro req e h
    simp [ping, h]
  · intro req e h
    simp [get_playlists, h]
  · intro req e pid h
    simp [get_playlist_tracks, h]
  · intro req e nm sids h
    simp [create_playlist, h]
  · intro req e pid nm pub h
    simp only [List.singleton_append, List.cons_append, List.nil_append] at h
    simp [update_playlist, h]
  · intro req e pid h
    simp [delete_playlist, h]
  · intro req e q cnt off h
    simp [search_songs, h]
  · intro base req e lt size off h
    simp [get_album_list2, cacheGet, h]
  · intro base req e aid h
    simp [get_album, cacheGet, h]

/-- C8 witness: two albums, the first of which fails to fetch; the stream
yields exactly the second album's song and completes. -/
theorem failed_album_skipped_witness :
    (∀ a ∈ [Json.obj [("id", Json.str "bad")], Json.obj [("id", Json.str "g")]],
      a.isObj = true) ∧
    ((pass2 (fun aid => if aid = "g" then .ok [Json.str "song1"]
          else .error .attributeError)
        (fun _ => false) 7
        [Json.obj [("id", Json.str "bad")], Json.obj [("id", Json.str "g")]]
        0 0).ys.map Prod.snd
      = ([Json.obj [("id", Json.str "bad")], Json.obj [("id", Json.str "g")]]
          : List Json).flatMap (albumFetchedSongs
            (fun aid => if aid = "g" then .ok [Json.str "song1"]
              else .error .attributeError)) ∧
      (pass2 (fun aid => if aid = "g" then .ok [Json.str "song1"]
          else .error .attributeError)
        (fun _ => false) 7
        [Json.obj [("id", Json.str "bad")], Json.obj [("id", Json.str "g")]]
        0 0).fin = .completed) ∧
    ([Json.obj [("id", Json.str "bad")], Json.obj [("id", Json.str "g")]]
        : List Json).flatMap (albumFetchedSongs
          (fun aid => if aid = "g" then .ok [Json.str "song1"]
            else .error .attributeError)) = [Json.str "song1"] :=
  ⟨by decide,
    (failed_album_skipped_and_errors_propagate
      (fun aid => if aid = "g" then .ok [Json.str "song1"]
        else .error .attributeError) 7
      [Json.obj [("id", Json.str "bad")], Json.obj [("id", Json.str "g")]]
      0 0 (by decide)).1,
    rfl⟩

/-- C2 counterexample: an album reporting `songCount` 0 whose fetch returns
one song makes the generator call `progress_cb(1, 0)` — a fetched count
strictly greater than the pass-1 total, contradicting the claim. -/
theorem progress_exceeds_total_counterexample :
    (iter_all_songs_stream
        (fun off => if off = 0
          then .ok [Json.obj [("id", Json.str "a"), ("songCount", Json.num 0)]]
          else .ok [])
        (fun _ => .ok [Json.str "song"])
        (fun _ => false) 10 10).progress = [(0, 0), (1, 0), (1, 0)] ∧
    ¬ (∀ p ∈ (iter_all_songs_stream
        (fun off => if off = 0
          then .ok [Json.obj [("id", Json.str "a"), ("songCount", Json.num 0)]]
          else .ok [])
        (fun _ => .ok [Json.str "song"])
        (fun _ => false) 10 10).progress, (p.1 : Int) ≤ p.2) :=
  ⟨rfl, by decide⟩

/-- Every progress call the per-song loop makes reports a fetched count at
most the final fetched count, which counts exactly the yields. -/
theorem yieldSongs_progress_bound (cancel : Nat → Bool) (total : Int)
    (songs : List Json) :
    ∀ polls fetched,
    (yieldSongs cancel total songs polls fetched).fetched
        = fetched + (yieldSongs cancel total songs polls fetched).ys.length ∧
    ∀ p ∈ (yieldSongs cancel total songs polls fetched).ps,
      p.1 ≤ (yieldSongs cancel total songs polls fetched).fetched ∧
      p.2 = total := by
  induction songs with
  | nil =>
    intro polls fetched
    constructor
    · simp [yieldSongs]
    · intro p hp
      simp [yieldSongs] at hp
  | cons s rest ih =>
    intro polls fetched
    by_cases hc : cancel polls
    · constructor
      · simp [yieldSongs, hc]
      · intro p hp
        simp [yieldSongs, hc] at hp
    · have h := ih (polls + 1) (fetched + 1)
      constructor
      · simp only [yieldSongs, hc, Bool.false_eq_true, if_false]
        simp only [List.length_cons, h.1]
        omega
      · intro p hp
        simp only [yieldSongs, hc, Bool.false_eq_true, if_false,
          List.mem_cons] at hp
        rcases hp with rfl | hp
        · constructor
          · simp only [yieldSongs, hc, Bool.false_eq_true, if_false,
              List.length_cons, h.1]
            omega
          · rfl
        · have h2 := h.2 p hp
          constructor
          · simp only [yieldSongs, hc, Bool.false_eq_true, if_false]
            exact h2.1
          · exact h2.2

/-- Every progress call pass 2 makes reports a fetched count at most the
final fetched count, which counts exactly the yields. -/
theorem pass2_progress_bound (ga : String → Except PyExc (List Json))
    (cancel : Nat → Bool) (total : Int) (albums : List Json) :
    ∀ polls fetched,
    (pass2 ga cancel total albums polls fetched).fetched
        = fetched + (pass2 ga cancel total albums polls fetched).ys.length ∧
    ∀ p ∈ (pass2 ga cancel total albums polls fetched).ps,
      p.1 ≤ (pass2 ga cancel total albums polls fetched).fetched ∧
      p.2 = total := by
  induction albums with
  | nil =>
    intro polls fetched
    constructor
    · simp [pass2]
    · intro p hp
      simp [pass2] at hp
  | cons album rest ih =>
    intro polls fetched
    by_cases hc : cancel polls
    · constructor
      · simp [pass2, hc]
      · intro p hp
        simp [pass2, hc] at hp
    · rcases hai : albumIdOf album with e | aid
      · constructor
        · simp [pass2, hc, hai]
        · intro p hp
          simp [pass2, hc, hai] at hp
      · by_cases hid : aid = ""
        · subst hid
          have hstep : pass2 ga cancel total (album :: rest) polls fetched
              = pass2 ga cancel total rest (polls + 1) fetched := by
            simp [pass2, hc, hai]
          have h := ih (polls + 1) fetched
          rw [hstep]
          exact ⟨h.1, h.2⟩
        · have hy := yieldSongs_progress_bound cancel total
            (match ga aid with | .ok songs => songs | .error _ => [])
            (polls + 1) fetched
          revert hy
          generalize hg : yieldSongs cancel total
            (match ga aid with | .ok songs => songs | .error _ => [])
            (polls + 1) fetched = r
          intro hy
          by_cases hst : r.stopped
          · have hstep : pass2 ga cancel total (album :: rest) polls fetched
                = ⟨r.ys, r.ps, r.polls, r.fetched, .cancelled⟩ := by
              simp [pass2, hc, hai, hid, hg, hst]
            constructor
            · rw [hstep]
              exact hy.1
            · intro p hp
              rw [hstep] at hp
              have h2 := hy.2 p hp
              rw [hstep]
              exact ⟨h2.1, h2.2⟩
          · have h := ih r.polls r.fetched
            have hstep : pass2 ga cancel total (album :: rest) polls fetched
                = ⟨r.ys ++ (pass2 ga cancel total rest r.polls r.fetched).ys,
                   r.ps ++ (pass2 ga cancel total rest r.polls r.fetched).ps,
                   (pass2 ga cancel total rest r.polls r.fetched).polls,
                   (pass2 ga cancel total rest r.polls r.fetched).fetched,
                   (pass2 ga cancel total rest r.polls r.fetched).fin⟩ := by
              simp [pass2, hc, hai, hid, hg, hst]
            constructor
            · rw [hstep]
              show (pass2 ga cancel total rest r.polls r.fetched).fetched
                  = fetched + (r.ys
                      ++ (pass2 ga cancel total rest r.polls r.fetched).ys).length
              rw [List.length_append]
              have h1 := h.1
              have hy1 := hy.1
              omega
            · intro p hp
              rw [hstep] at hp
              rw [hstep]
              rcases List.mem_append.mp hp with hp | hp
              · have h2 := hy.2 p hp
                have h1 := h.1
                have hy1 := hy.1
                refine ⟨?_, h2.2⟩
                show p.1 ≤ (pass2 ga cancel total rest r.polls r.fetched).fetched
                have hle := h2.1
                omega
              · have h2 := h.2 p hp
                exact ⟨h2.1, h2.2⟩

/-- C2 amended.  Every `progress_cb(fetched, total)` call reports a fetched
count at most the number of songs the stream yields, so `fetched ≤ total`
holds whenever pass 2 yields no more songs than pass 1 counted; when pass 2
yields more, calls with `fetched > total` do occur (see the
counterexample). -/
theorem progress_bounded_by_yields (lp : Nat → Except PyExc (List Json))
    (ga : String → Except PyExc (List Json)) (cancel : Nat → Bool)
    (page_size max_pages : Nat) :
    ∀ p ∈ (iter_all_songs_stream lp ga cancel page_size max_pages).progress,
      p.1 ≤ (iter_all_songs_stream lp ga cancel page_size max_pages).yielded.length ∧
      (((iter_all_songs_stream lp ga cancel page_size max_pages).yielded.length : Int)
          ≤ p.2 →
        (p.1 : Int) ≤ p.2) := by
  intro p hp
  suffices h : p.1 ≤ (iter_all_songs_stream lp ga cancel page_size max_pages).yielded.length by
    refine ⟨h, fun hle => ?_⟩
    calc (p.1 : Int) ≤ ((iter_all_songs_stream lp ga cancel page_size
        max_pages).yielded.length : Int) := by exact_mod_cast h
      _ ≤ p.2 := hle
  rcases h1 : pass1 lp cancel page_size max_pages 0 0 0 [] with polls | ⟨t, albums, polls⟩ | ⟨e, polls⟩
  · simp only [iter_all_songs_stream, h1] at hp
    simp at hp
  · have hb := pass2_progress_bound ga cancel t albums polls 0
    simp only [iter_all_songs_stream, h1] at hp ⊢
    rcases List.mem_cons.mp hp with rfl | hp1
    · simp
    · rcases List.mem_append.mp hp1 with hp2 | hp2
      · have h2 := hb.2 p hp2
        have h3 := hb.1
        omega
      · rcases hfin : (pass2 ga cancel t albums polls 0).fin with _ | _ | e2
        · rw [hfin] at hp2
          simp only [List.mem_singleton] at hp2
          subst hp2
          have h3 := hb.1
          show (pass2 ga cancel t albums polls 0).fetched
              ≤ (pass2 ga cancel t albums polls 0).ys.length
          omega
        · rw [hfin] at hp2
          simp at hp2
        · rw [hfin] at hp2
          simp at hp2
  · simp only [iter_all_songs_stream, h1] at hp
    simp at hp

/-- C2 amended witness: with accurate counts (one album, songCount 1, one
fetched song) the call `progress_cb(1, 1)` satisfies the bound. -/
theorem progress_bounded_by_yields_witness :
    (((1 : Nat), (1 : Int)) ∈ (iter_all_songs_stream
        (fun off => if off = 0
          then .ok [Json.obj [("id", Json.str "a"), ("songCount", Json.num 1)]]
          else .ok [])
        (fun _ => .ok [Json.str "song"])
        (fun _ => false) 10 10).progress) ∧
    ((1 : Nat) ≤ (iter_all_songs_stream
        (fun off => if off = 0
          then .ok [Json.obj [("id", Json.str "a"), ("songCount", Json.num 1)]]
          else .ok [])
        (fun _ => .ok [Json.str "song"])
        (fun _ => false) 10 10).yielded.length ∧
      (((iter_all_songs_stream
            (fun off => if off = 0
              then .ok [Json.obj [("id", Json.str "a"), ("songCount", Json.num 1)]]
              else .ok [])
            (fun _ => .ok [Json.str "song"])
            (fun _ => false) 10 10).yielded.length : Int) ≤ 1 →
        (1 : Int) ≤ 1)) :=
  ⟨by decide, progress_bounded_by_yields
    (fun off => if off = 0
      then .ok [Json.obj [("id", Json.str "a"), ("songCount", Json.num 1)]]
      else .ok [])
    (fun _ => .ok [Json.str "song"])
    (fun _ => false) 10 10 (1, 1) (by decide)⟩

/-- Whenever pass 1 finishes normally, every cancel poll it made returned
false. -/
theorem pass1_done_checks_false (lp : Nat → Except PyExc (List Json))
    (cancel : Nat → Bool) (ps : Nat) :
    ∀ (fuel offset polls : Nat) (total : Int) (acc : List Json)
      (t : Int) (a : List Json) (pk : Nat),
    pass1 lp cancel ps fuel offset polls total acc = .done t a pk →
    ∀ j, polls ≤ j → j < pk → cancel j = false := by
  intro fuel
  induction fuel with
  | zero =>
    intro offset polls total acc t a pk h j hj1 hj2
    simp only [pass1, Pass1Out.done.injEq] at h
    omega
  | succ fuel ih =>
    intro offset polls total acc t a pk h j hj1 hj2
    by_cases hc : cancel polls
    · simp [pass1, hc] at h
    · rcases hlp : lp offset with e | albums
      · simp [pass1, hc, hlp] at h
      · by_cases hemp : albums.isEmpty
        · simp only [pass1, hc, Bool.false_eq_true, if_false, hlp, hemp,
            if_true, Pass1Out.done.injEq] at h
          have hj : j = polls := by omega
          subst hj
          simpa using hc
        · rcases hpc : pageCount albums with e | pc
          · simp [pass1, hc, hlp, hemp, hpc] at h
          · by_cases hshort : albums.length < ps
            · simp only [pass1, hc, Bool.false_eq_true, if_false, hlp, hemp,
                if_false, hpc, hshort, if_true, Pass1Out.done.injEq] at h
              have hj : j = polls := by omega
              subst hj
              simpa using hc
            · have h2 : pass1 lp cancel ps fuel (offset + ps) (polls + 1)
                  (total + pc) (acc ++ albums) = .done t a pk := by
                simpa [pass1, hc, hlp, hemp, hpc, hshort] using h
              by_cases hje : j = polls
              · subst hje
                simpa using hc
              · exact ih _ _ _ _ _ _ _ h2 j (by omega) hj2

/-- If the cancel sequence is false before poll `k` and true at poll `k`,
and pass 1 reaches poll `k`, it stops there: it returns `cancelled` having
made exactly `k + 1` polls. -/
theorem pass1_cancelled_at (lp : Nat → Except PyExc (List Json))
    (cancel : Nat → Bool) (ps k : Nat)
    (hf : ∀ j < k, cancel j = false) (ht : cancel k = true) :
    ∀ (fuel offset polls : Nat) (total : Int) (acc : List Json),
    polls ≤ k →
    k + 1 ≤ (pass1 lp cancel ps fuel offset polls total acc).polls →
    pass1 lp cancel ps fuel offset polls total acc = .cancelled (k + 1) := by
  intro fuel
  induction fuel with
  | zero =>
    intro offset polls total acc hpk hax
    simp only [pass1, Pass1Out.polls] at hax
    omega
  | succ fuel ih =>
    intro offset polls total acc hpk hax
    by_cases hc : cancel polls
    · have hpe : polls = k := by
        by_contra hne
        have hlt : polls < k := by omega
        rw [hf polls hlt] at hc
        exact absurd hc (by simp)
      subst hpe
      simp [pass1, hc]
    · have hlt : polls < k := by
        rcases Nat.lt_or_ge polls k with h | h
        · exact h
        · have hpe : polls = k := by omega
          rw [hpe] at hc
          exact absurd ht hc
      rcases hlp : lp offset with e | albums
      · simp only [pass1, hc, Bool.false_eq_true, if_false, hlp,
          Pass1Out.polls] at hax
        omega
      · by_cases hemp : albums.isEmpty
        · simp only [pass1, hc, Bool.false_eq_true, if_false, hlp, hemp,
            if_true, Pass1Out.polls] at hax
          omega
        · rcases hpc : pageCount albums with e | pc
          · simp only [pass1, hc, Bool.false_eq_true, if_false, hlp, hemp,
              Bool.false_eq_true, if_false, hpc, Pass1Out.polls] at hax
            omega
          · by_cases hshort : albums.length < ps
            · simp only [pass1, hc, Bool.false_eq_true, if_false, hlp, hemp,
                Bool.false_eq_true, if_false, hpc, hshort, if_true,
                Pass1Out.polls] at hax
              omega
            · have hstep : pass1 lp cancel ps (fuel + 1) offset polls total acc
                  = pass1 lp cancel ps fuel (offset + ps) (polls + 1)
                      (total + pc) (acc ++ albums) := by
                simp [pass1, hc, hlp, hemp, hpc, hshort]
              rw [hstep] at hax ⊢
              exact ih _ _ _ _ (by omega) hax

/-- Bookkeeping facts about the per-song loop: the poll count never
decreases, every yield is tagged within the polls made, and an unstopped run
means every poll it made returned false. -/
theorem yieldSongs_polls_facts (cancel : Nat → Bool) (total : Int)
    (songs : List Json) :
    ∀ polls fetched,
    polls ≤ (yieldSongs cancel total songs polls fetched).polls ∧
    (∀ p ∈ (yieldSongs cancel total songs polls fetched).ys,
      p.1 ≤ (yieldSongs cancel total songs polls fetched).polls) ∧
    ((yieldSongs cancel total songs polls fetched).stopped = false →
      ∀ j, polls ≤ j → j < (yieldSongs cancel total songs polls fetched).polls →
        cancel j = false) := by
  induction songs with
  | nil =>
    intro polls fetched
    refine ⟨le_refl _, ?_, ?_⟩
    · intro p hp
      simp [yieldSongs] at hp
    · intro _ j hj1 hj2
      simp [yieldSongs] at hj2
      omega
  | cons s rest ih =>
    intro polls fetched
    by_cases hc : cancel polls
    · refine ⟨?_, ?_, ?_⟩
      · simp [yieldSongs, hc]
      · intro p hp
        simp [yieldSongs, hc] at hp
      · intro hstop
        simp [yieldSongs, hc] at hstop
    · have h := ih (polls + 1) (fetched + 1)
      have hstep : yieldSongs cancel total (s :: rest) polls fetched
          = ⟨(polls + 1, s) :: (yieldSongs cancel total rest (polls + 1) (fetched + 1)).ys,
             (fetched + 1, total) :: (yieldSongs cancel total rest (polls + 1) (fetched + 1)).ps,
             (yieldSongs cancel total rest (polls + 1) (fetched + 1)).polls,
             (yieldSongs cancel total rest (polls + 1) (fetched + 1)).fetched,
             (yieldSongs cancel total rest (polls + 1) (fetched + 1)).stopped⟩ := by
        simp [yieldSongs, hc]
      rw [hstep]
      refine ⟨?_, ?_, ?_⟩
      · show polls ≤ (yieldSongs cancel total rest (polls + 1) (fetched + 1)).polls
        have h1 := h.1
        omega
      · intro p hp
        rcases List.mem_cons.mp hp with rfl | hp
        · have h1 := h.1
          simpa using h1
        · exact h.2.1 p hp
      · intro hstop j hj1 hj2
        by_cases hje : j = polls
        · subst hje
          simpa using hc
        · exact h.2.2 hstop j (by omega) hj2

/-- If the cancel sequence is false before poll `k` and true at poll `k`,
and the per-song loop reaches poll `k`, it stops there with every yield made
before poll `k`. -/
theorem yieldSongs_cancelled_at (cancel : Nat → Bool) (total : Int) (k : Nat)
    (hf : ∀ j < k, cancel j = false) (ht : cancel k = true)
    (songs : List Json) :
    ∀ polls fetched,
    polls ≤ k →
    k + 1 ≤ (yieldSongs cancel total songs polls fetched).polls →
    (yieldSongs cancel total songs polls fetched).stopped = true ∧
    (yieldSongs cancel total songs polls fetched).polls = k + 1 ∧
    ∀ p ∈ (yieldSongs cancel total songs polls fetched).ys, p.1 ≤ k := by
  induction songs with
  | nil =>
    intro polls fetched hpk hax
    simp only [yieldSongs] at hax
    omega
  | cons s rest ih =>
    intro polls fetched hpk hax
    by_cases hc : cancel polls
    · have hpe : polls = k := by
        by_contra hne
        have hlt : polls < k := by omega
        rw [hf polls hlt] at hc
        exact absurd hc (by simp)
      subst hpe
      refine ⟨by simp [yieldSongs, hc], by simp [yieldSongs, hc], ?_⟩
      intro p hp
      simp [yieldSongs, hc] at hp
    · have hlt : polls < k := by
        rcases Nat.lt_or_ge polls k with h | h
        · exact h
        · have hpe : polls = k := by omega
          rw [hpe] at hc
          exact absurd ht hc
      have hstep : yieldSongs cancel total (s :: rest) polls fetched
          = ⟨(polls + 1, s) :: (yieldSongs cancel total rest (polls + 1) (fetched + 1)).ys,
             (fetched + 1, total) :: (yieldSongs cancel total rest (polls + 1) (fetched + 1)).ps,
             (yieldSongs cancel total rest (polls + 1) (fetched + 1)).polls,
             (yieldSongs cancel total rest (polls + 1) (fetched + 1)).fetched,
             (yieldSongs cancel total rest (polls + 1) (fetched + 1)).stopped⟩ := by
        simp [yieldSongs, hc]
      rw [hstep] at hax ⊢
      have h := ih (polls + 1) (fetched + 1) (by omega) hax
      refine ⟨h.1, h.2.1, ?_⟩
      intro p hp
      rcases List.mem_cons.mp hp with rfl | hp
      · simp
        omega
      · exact h.2.2 p hp

/-- If the cancel sequence is false before poll `k` and true at poll `k`,
and pass 2 reaches poll `k`, it ends as cancelled there with every yield
made before poll `k`. -/
theorem pass2_cancelled_at (ga : String → Except PyExc (List Json))
    (cancel : Nat → Bool) (total : Int) (k : Nat)
    (hf : ∀ j < k, cancel j = false) (ht : cancel k = true)
    (albums : List Json) :
    ∀ polls fetched,
    polls ≤ k →
    k + 1 ≤ (pass2 ga cancel total albums polls fetched).polls →
    (pass2 ga cancel total albums polls fetched).fin = .cancelled ∧
    (pass2 ga cancel total albums polls fetched).polls = k + 1 ∧
    ∀ p ∈ (pass2 ga cancel total albums polls fetched).ys, p.1 ≤ k := by
  induction albums with
  | nil =>
    intro polls fetched hpk hax
    simp only [pass2] at hax
    omega
  | cons album rest ih =>
    intro polls fetched hpk hax
    by_cases hc : cancel polls
    · have hpe : polls = k := by
        by_contra hne
        have hlt : polls < k := by omega
        rw [hf polls hlt] at hc
        exact absurd hc (by simp)
      subst hpe
      refine ⟨by simp [pass2, hc], by simp [pass2, hc], ?_⟩
      intro p hp
      simp [pass2, hc] at hp
    · have hlt : polls < k := by
        rcases Nat.lt_or_ge polls k with h | h
        · exact h
        · have hpe : polls = k := by omega
          rw [hpe] at hc
          exact absurd ht hc
      rcases hai : albumIdOf album with e | aid
      · simp only [pass2, hc, Bool.false_eq_true, if_false, hai] at hax
        omega
      · by_cases hid : aid = ""
        · subst hid
          have hstep : pass2 ga cancel total (album :: rest) polls fetched
              = pass2 ga cancel total rest (polls + 1) fetched := by
            simp [pass2, hc, hai]
          rw [hstep] at hax ⊢
          exact ih (polls + 1) fetched (by omega) hax
        · have hyf := yieldSongs_polls_facts cancel total
            (match ga aid with | .ok songs => songs | .error _ => [])
            (polls + 1) fetched
          revert hyf hax
          generalize hg : yieldSongs cancel total
            (match ga aid with | .ok songs => songs | .error _ => [])
            (polls + 1) fetched = r
          intro hax hyf
          by_cases hst : r.stopped
          · have hstep : pass2 ga cancel total (album :: rest) polls fetched
                = ⟨r.ys, r.ps, r.polls, r.fetched, .cancelled⟩ := by
              simp [pass2, hc, hai, hid, hg, hst]
            rw [hstep] at hax ⊢
            have hy := yieldSongs_cancelled_at cancel total k hf ht
              (match ga aid with | .ok songs => songs | .error _ => [])
              (polls + 1) fetched (by omega) (by rw [hg]; exact hax)
            rw [hg] at hy
            exact ⟨rfl, hy.2.1, hy.2.2⟩
          · have hrk : r.polls ≤ k := by
              by_contra hgt
              have hck := hyf.2.2 (by simpa using hst) k (by omega) (by omega)
              rw [hck] at ht
              exact absurd ht (by simp)
            have hstep : pass2 ga cancel total (album :: rest) polls fetched
                = ⟨r.ys ++ (pass2 ga cancel total rest r.polls r.fetched).ys,
                   r.ps ++ (pass2 ga cancel total rest r.polls r.fetched).ps,
                   (pass2 ga cancel total rest r.polls r.fetched).polls,
                   (pass2 ga cancel total rest r.polls r.fetched).fetched,
                   (pass2 ga cancel total rest r.polls r.fetched).fin⟩ := by
              simp [pass2, hc, hai, hid, hg, hst]
            rw [hstep] at hax ⊢
            have h := ih r.polls r.fetched hrk hax
            refine ⟨h.1, h.2.1, ?_⟩
            intro p hp
            rcases List.mem_append.mp hp with hp | hp
            · have h2 := hyf.2.1 p hp
              omega
            · exact h.2.2 p hp

/-- C3.  Once the cancellation predicate first returns true at a reached
checkpoint (the `k`-th poll), the generator makes no further polls, raises
no error, and every yield happened before that checkpoint. -/
theorem cancellation_stops_stream (lp : Nat → Except PyExc (List Json))
    (ga : String → Except PyExc (List Json)) (cancel : Nat → Bool)
    (page_size max_pages k : Nat)
    (hf : ∀ j < k, cancel j = false) (ht : cancel k = true)
    (hr : k + 1 ≤ (iter_all_songs_stream lp ga cancel page_size max_pages).polls) :
    (iter_all_songs_stream lp ga cancel page_size max_pages).polls = k + 1 ∧
    (iter_all_songs_stream lp ga cancel page_size max_pages).error? = none ∧
    ∀ p ∈ (iter_all_songs_stream lp ga cancel page_size max_pages).yielded,
      p.1 ≤ k := by
  rcases h1 : pass1 lp cancel page_size max_pages 0 0 0 []
    with polls | ⟨t, albums, polls⟩ | ⟨e, polls⟩
  · have hcan := pass1_cancelled_at lp cancel page_size k hf ht max_pages 0 0 0 []
      (Nat.zero_le k) (by
        rw [h1]
        simp only [iter_all_songs_stream, h1] at hr
        exact hr)
    rw [h1] at hcan
    have hpk : polls = k + 1 := by
      have := congrArg Pass1Out.polls hcan
      simpa [Pass1Out.polls] using this
    subst hpk
    refine ⟨?_, ?_, ?_⟩
    · simp [iter_all_songs_stream, h1]
    · simp [iter_all_songs_stream, h1]
    · intro p hp
      simp [iter_all_songs_stream, h1] at hp
  · -- pass 1 finished: its polls stayed at or below k, pass 2 reached k
    have hple : polls ≤ k := by
      by_contra hgt
      have hck := pass1_done_checks_false lp cancel page_size max_pages 0 0 0 []
        t albums polls h1 k (Nat.zero_le k) (by omega)
      rw [hck] at ht
      exact absurd ht (by simp)
    have hax : k + 1 ≤ (pass2 ga cancel t albums polls 0).polls := by
      simpa [iter_all_songs_stream, h1] using hr
    have h2 := pass2_cancelled_at ga cancel t k hf ht albums polls 0 hple hax
    refine ⟨?_, ?_, ?_⟩
    · simpa [iter_all_songs_stream, h1] using h2.2.1
    · simp only [iter_all_songs_stream, h1]
      rw [h2.1]
    · intro p hp
      simp only [iter_all_songs_stream, h1] at hp
      exact h2.2.2 p hp
  · exfalso
    have hcan := pass1_cancelled_at lp cancel page_size k hf ht max_pages 0 0 0 []
      (Nat.zero_le k) (by
        rw [h1]
        simp only [iter_all_songs_stream, h1] at hr
        exact hr)
    rw [h1] at hcan
    exact Pass1Out.noConfusion hcan

/-- C3 witness: four albums; cancellation first returns true at the poll
before the third album, after the first two albums' three songs were
yielded; the stream stops there with no error, yielding exactly those three
songs. -/
theorem cancellation_stops_stream_witness :
    (∀ j < 6, (fun j => decide (6 ≤ j)) j = false) ∧
    ((fun j => decide (6 ≤ j)) 6 = true) ∧
    6 + 1 ≤ (iter_all_songs_stream
        (fun off => if off = 0
          then .ok [Json.obj [("id", Json.str "a1"), ("songCount", Json.num 2)],
                    Json.obj [("id", Json.str "a2"), ("songCount", Json.num 1)],
                    Json.obj [("id", Json.str "a3"), ("songCount", Json.num 1)],
                    Json.obj [("id", Json.str "a4"), ("songCount", Json.num 1)]]
          else .ok [])
        (fun aid =>
          if aid = "a1" then .ok [Json.str "s1", Json.str "s2"]
          else if aid = "a2" then .ok [Json.str "s3"]
          else if aid = "a3" then .ok [Json.str "s4"]
          else .ok [Json.str "s5"])
        (fun j => decide (6 ≤ j)) 10 10).polls ∧
    ((iter_all_songs_stream
        (fun off => if off = 0
          then .ok [Json.obj [("id", Json.str "a1"), ("songCount", Json.num 2)],
                    Json.obj [("id", Json.str "a2"), ("songCount", Json.num 1)],
                    Json.obj [("id", Json.str "a3"), ("songCount", Json.num 1)],
                    Json.obj [("id", Json.str "a4"), ("songCount", Json.num 1)]]
          else .ok [])
        (fun aid =>
          if aid = "a1" then .ok [Json.str "s1", Json.str "s2"]
          else if aid = "a2" then .ok [Json.str "s3"]
          else if aid = "a3" then .ok [Json.str "s4"]
          else .ok [Json.str "s5"])
        (fun j => decide (6 ≤ j)) 10 10).polls = 6 + 1 ∧
      (iter_all_songs_stream
        (fun off => if off = 0
          then .ok [Json.obj [("id", Json.str "a1"), ("songCount", Json.num 2)],
                    Json.obj [("id", Json.str "a2"), ("songCount", Json.num 1)],
                    Json.obj [("id", Json.str "a3"), ("songCount", Json.num 1)],
                    Json.obj [("id", Json.str "a4"), ("songCount", Json.num 1)]]
          else .ok [])
        (fun aid =>
          if aid = "a1" then .ok [Json.str "s1", Json.str "s2"]
          else if aid = "a2" then .ok [Json.str "s3"]
          else if aid = "a3" then .ok [Json.str "s4"]
          else .ok [Json.str "s5"])
        (fun j => decide (6 ≤ j)) 10 10).error? = none ∧
      ∀ p ∈ (iter_all_songs_stream
        (fun off => if off = 0
          then .ok [Json.obj [("id", Json.str "a1"), ("songCount", Json.num 2)],
                    Json.obj [("id", Json.str "a2"), ("songCount", Json.num 1)],
                    Json.obj [("id", Json.str "a3"), ("songCount", Json.num 1)],
                    Json.obj [("id", Json.str "a4"), ("songCount", Json.num 1)]]
          else .ok [])
        (fun aid =>
          if aid = "a1" then .ok [Json.str "s1", Json.str "s2"]
          else if aid = "a2" then .ok [Json.str "s3"]
          else if aid = "a3" then .ok [Json.str "s4"]
          else .ok [Json.str "s5"])
        (fun j => decide (6 ≤ j)) 10 10).yielded, p.1 ≤ 6) ∧
    (iter_all_songs_stream
        (fun off => if off = 0
          then .ok [Json.obj [("id", Json.str "a1"), ("songCount", Json.num 2)],
                    Json.obj [("id", Json.str "a2"), ("songCount", Json.num 1)],
                    Json.obj [("id", Json.str "a3"), ("songCount", Json.num 1)],
                    Json.obj [("id", Json.str "a4"), ("songCount", Json.num 1)]]
          else .ok [])
        (fun aid =>
          if aid = "a1" then .ok [Json.str "s1", Json.str "s2"]
          else if aid = "a2" then .ok [Json.str "s3"]
          else if aid = "a3" then .ok [Json.str "s4"]
          else .ok [Json.str "s5"])
        (fun j => decide (6 ≤ j)) 10 10).yielded.map Prod.snd
      = [Json.str "s1", Json.str "s2", Json.str "s3"] :=
  ⟨by decide, by decide, by decide,
    cancellation_stops_stream
      (fun off => if off = 0
          then .ok [Json.obj [("id", Json.str "a1"), ("songCount", Json.num 2)],
                    Json.obj [("id", Json.str "a2"), ("songCount", Json.num 1)],
                    Json.obj [("id", Json.str "a3"), ("songCount", Json.num 1)],
                    Json.obj [("id", Json.str "a4"), ("songCount", Json.num 1)]]
          else .ok [])
      (fun aid =>
          if aid = "a1" then .ok [Json.str "s1", Json.str "s2"]
          else if aid = "a2" then .ok [Json.str "s3"]
          else if aid = "a3" then .ok [Json.str "s4"]
          else .ok [Json.str "s5"])
      (fun j => decide (6 ≤ j)) 10 10 6 (by decide) (by decide) (by decide),
    rfl⟩

end Navidrome